import Mathlib

/-!
Verification development for the Geospatial Relativity Simulator.

The embedding follows the JavaScript sources:
- `src/gps-relativity/entities/satellite.js` (satellite registry, creation, per-step update),
- `src/gps-relativity/app.js` (module state, UI callbacks, the `animate` frame loop),
- `src/gps-relativity/ui.js` (drift metric shown in the HUD),
- `src/unnamed/part_001` (an alternate main loop with its own `animate`).

JavaScript `undefined` and `NaN` number values are modelled as `none : Option ℝ`;
arithmetic on them yields `NaN` again, modelled by `Option` propagation.
All other numbers are modelled as real numbers.
-/

namespace GeoRel

/-- JS addition `a + b` where `a` may be `undefined` or `NaN`:
any non-real operand produces `NaN` (`none`). -/
def jsAdd (a : Option ℝ) (b : ℝ) : Option ℝ := a.map (· + b)

/-- JS subtraction `a - b` on possibly `undefined`/`NaN` operands. -/
def jsSub (a b : Option ℝ) : Option ℝ := a.bind fun x => b.map fun y => x - y

/-- JS `a || b` for a numeric-or-undefined `a`: `undefined`, `NaN` and `0` are all
falsy, so they select the fallback `b`. -/
noncomputable def jsOr (a : Option ℝ) (b : ℝ) : ℝ :=
  match a with
  | none => b
  | some v => if v = 0 then b else v

namespace PHYSICS

/-- Modelled from the spec: `physics.js` is imported by every source file but is not
present under `src/`. Earth mean radius; `earth.js` states "100 units = 6,371km
(Earth Mean Radius)". -/
def R_EARTH : ℝ := 6371000

/-- Modelled from the spec: the gravitational constant `G` referenced by
`satellite.js` (`v = sqrt(G * M_earth / r)`); standard value `6.674e-11`. -/
def G : ℝ := 6.674e-11

/-- Modelled from the spec: Earth's mass; the spec scenario fixes it as `5.972e24 kg`. -/
def earthMass : ℝ := 5.972e24

/-- Modelled from the spec: the speed of light used by the relativity factors. -/
def c : ℝ := 299792458

/-- Modelled from the spec: special-relativistic factor `sqrt(1 - (v/c)^2)` (spec 4.4). -/
noncomputable def getSpecialRelativityFactor (v : ℝ) : ℝ :=
  Real.sqrt (1 - (v / c) ^ 2)

/-- Modelled from the spec: general-relativistic factor `sqrt(1 - 2GM/(r*c^2))` (spec 4.4). -/
noncomputable def getGeneralRelativityFactor (r : ℝ) : ℝ :=
  Real.sqrt (1 - 2 * G * earthMass / (r * c ^ 2))

end PHYSICS

/-- `VISUAL_SCALE = 100 / PHYSICS.R_EARTH` (satellite.js). -/
noncomputable def VISUAL_SCALE : ℝ := 100 / PHYSICS.R_EARTH

/-- One entry of `SATELLITE_REGISTRY` (satellite.js). -/
structure SatConfig where
  id : String
  type : String
  altitude : ℝ
  inclination : ℝ
  color : ℕ
  launchDate : String

def ISS_ALPHA : SatConfig :=
  ⟨"ISS-ALPHA", "STATION", 408000, 51.6, 0xffcc00, "1998-11-20"⟩

def CHRONOS_01 : SatConfig :=
  ⟨"CHRONOS-01", "GPS", 20200000, 55, 0x00f2ff, "2014-05-18"⟩

def AURA_NET : SatConfig :=
  ⟨"AURA-NET", "LEO", 1200000, 98, 0x00ffaa, "2021-02-14"⟩

def STAR_LINK : SatConfig :=
  ⟨"STAR-LINK", "COMM", 550000, 53, 0xffffff, "2019-11-11"⟩

def SPECTER_9 : SatConfig :=
  ⟨"SPECTER-9", "RELAY", 15000000, 15, 0xff4400, "2023-08-30"⟩

/-- The fixed five-satellite registry of `satellite.js`. -/
def SATELLITE_REGISTRY : List SatConfig :=
  [ISS_ALPHA, CHRONOS_01, AURA_NET, STAR_LINK, SPECTER_9]

/-- A three-dimensional vector (`THREE.Vector3`). -/
@[ext]
structure Vec3 where
  x : ℝ
  y : ℝ
  z : ℝ

/-- The `userData` record attached to each satellite group (satellite.js).
`earthTime` and `satTime` are read and written by `updateSatellites` but are
never initialized by `createSatellites`, so they start as JS `undefined` (`none`). -/
structure SatData where
  visualRadius : ℝ
  realRadius : ℝ
  velocity : ℝ
  angularVelocity : ℝ
  angle : ℝ
  earthTime : Option ℝ
  satTime : Option ℝ

/-- A satellite group: its `userData`, its local position in the pivot frame,
the world-space target of the latest `lookAt` call (none before the first update),
and the pivot rotations set at creation (`pivot.rotation.y`, `pivot.rotation.z`). -/
structure Sat where
  userData : SatData
  position : Vec3
  lookTarget : Option Vec3
  pivotRotY : ℝ
  pivotRotZ : ℝ

/-- Creation of the `i`-th satellite from its registry entry (satellite.js,
`createSatellites` body). `rand` is the `Math.random()` sample drawn for the
initial phase angle. `earthTime`/`satTime` are absent from the constructed
`userData` object, hence `none`. -/
noncomputable def mkSat (config : SatConfig) (i : ℕ) (rand : ℝ) : Sat :=
  let realRadius := PHYSICS.R_EARTH + config.altitude
  let visualRadius := realRadius * VISUAL_SCALE
  let velocity := Real.sqrt (PHYSICS.G * PHYSICS.earthMass / realRadius)
  { userData :=
      { visualRadius := visualRadius
        realRadius := realRadius
        velocity := velocity
        angularVelocity := velocity / realRadius
        angle := rand * Real.pi * 2
        earthTime := none
        satTime := none }
    position := ⟨visualRadius, 0, 0⟩
    lookTarget := none
    pivotRotY := (i * (360 / 5)) * (Real.pi / 180)
    pivotRotZ := config.inclination * (Real.pi / 180) }

/-- `createSatellites` (satellite.js): one satellite per registry entry, consuming
one `Math.random()` sample each (the sample stream is the function `rand`). -/
noncomputable def createSatellites (rand : ℕ → ℝ) : List Sat :=
  SATELLITE_REGISTRY.enum.map fun p => mkSat p.2 p.1 (rand p.1)

/-- One `updateSatellites` step on a single satellite (satellite.js lines 151-165):
advance the angle, recompute the XZ position, `lookAt(0, 0, 0)` (a world-space
target), then accumulate the two clocks. -/
noncomputable def updateSat (sat : Sat) (dt : ℝ) : Sat :=
  let d := sat.userData
  let angle := d.angle + d.angularVelocity * dt
  let x := d.visualRadius * Real.cos angle
  let z := d.visualRadius * Real.sin angle
  { sat with
    userData :=
      { d with
        angle := angle
        earthTime := jsAdd d.earthTime dt
        satTime := jsAdd d.satTime
          (dt * PHYSICS.getSpecialRelativityFactor d.velocity *
            PHYSICS.getGeneralRelativityFactor d.realRadius) }
    position := ⟨x, 0, z⟩
    lookTarget := some ⟨0, 0, 0⟩ }

/-- `updateSatellites` over the whole fleet. -/
noncomputable def updateSatellites (sats : List Sat) (dt : ℝ) : List Sat :=
  sats.map (updateSat · dt)

/-- The drift metric rendered by `ui.js`:
`(sat.userData.satTime - sat.userData.earthTime) * 1e6` microseconds. -/
noncomputable def driftMicroseconds (d : SatData) : Option ℝ :=
  (jsSub d.satTime d.earthTime).map (· * 1e6)

/-- The `focusTarget` object of `app.js` (`{ type, index }`). -/
structure FocusTarget where
  type : String
  index : Option ℕ

/-- The mutable module-level state of `app.js` that the claims touch.
`windowTimeScale` models the `window.timeScale` property read by `animate`;
the module never assigns it (its own `timeScale` is a module-scoped `let`,
which does not become a `window` property in an ES module). -/
structure AppState where
  simulatedTime : ℝ
  timeScale : ℝ
  windowTimeScale : Option ℝ
  trackingMode : String
  focusTarget : FocusTarget
  activeSatIndex : ℕ
  controlsTarget : Vec3
  satellites : List Sat

/-- The `onSpeedChange` callback (app.js line 127): assigns the module `timeScale`. -/
def onSpeedChange (val : ℝ) (st : AppState) : AppState :=
  { st with timeScale := val }

/-- Rotation about the Y axis (Three.js convention). -/
noncomputable def rotY (t : ℝ) (v : Vec3) : Vec3 :=
  ⟨v.x * Real.cos t + v.z * Real.sin t, v.y, -v.x * Real.sin t + v.z * Real.cos t⟩

/-- Rotation about the Z axis (Three.js convention). -/
noncomputable def rotZ (t : ℝ) (v : Vec3) : Vec3 :=
  ⟨v.x * Real.cos t - v.y * Real.sin t, v.x * Real.sin t + v.y * Real.cos t, v.z⟩

/-- `satelliteAnchor.position` (app.js lines 76-82): a copy of
`earthGroup.position = (15000, 0, 0)` inside `earthOrbitPivot`. -/
def satelliteAnchorPosition : Vec3 := ⟨15000, 0, 0⟩

/-- World position of the origin of a satellite's parent frame (its orbit pivot,
which sits at the satellite anchor under the Earth orbit pivot rotated by
`earthOrbitY`). A pivot's own rotations fix its origin, so only the anchor
offset and the Earth orbit rotation contribute. -/
noncomputable def pivotOriginWorld (earthOrbitY : ℝ) : Vec3 :=
  rotY earthOrbitY satelliteAnchorPosition

/-- World position of a satellite: Earth-orbit rotation applied to the anchor
offset plus the pivot-rotated local position (`pivot.rotation.y` then the
inclination `pivot.rotation.z` act on the local vector, Euler order XYZ). -/
noncomputable def satWorldPosition (earthOrbitY : ℝ) (sat : Sat) : Vec3 :=
  let localPos := rotY sat.pivotRotY (rotZ sat.pivotRotZ sat.position)
  rotY earthOrbitY
    ⟨satelliteAnchorPosition.x + localPos.x,
     satelliteAnchorPosition.y + localPos.y,
     satelliteAnchorPosition.z + localPos.z⟩

/-- The `onSelectGPS` callback (app.js lines 103-116). It first mutates
`focusTarget`, `trackingMode` and `activeSatIndex`, then dereferences
`satellites[index]`; when the index is out of range this is `undefined` and
`getWorldPosition` throws a `TypeError`, leaving the earlier mutations in
place and the camera target untouched. The Boolean records whether the call
threw. The camera follow uses the world position at Earth orbit angle
`earthOrbitY`. -/
noncomputable def onSelectGPS (earthOrbitY : ℝ) (st : AppState) (index : ℕ) :
    AppState × Bool :=
  let st1 := { st with
    focusTarget := ⟨"SATELLITE", some index⟩
    trackingMode := "SATELLITE"
    activeSatIndex := index }
  match st1.satellites.get? index with
  | none => (st1, true)
  | some sat => ({ st1 with controlsTarget := satWorldPosition earthOrbitY sat }, false)

/-- One `animate` frame of `app.js` (lines 138-160), restricted to the simulated
clock and the satellite updates: `physicsDt = Math.min(realDt, 0.1)`,
`scaledDt = physicsDt * (window.timeScale || 1000)`, the `Date` timestamp grows
by `scaledDt * 1000` milliseconds, and `updateSatellites` runs with `scaledDt`. -/
noncomputable def animate (st : AppState) (realDt : ℝ) : AppState :=
  let physicsDt := min realDt 0.1
  let scaledDt := physicsDt * jsOr st.windowTimeScale 1000
  { st with
    simulatedTime := st.simulatedTime + scaledDt * 1000
    satellites := updateSatellites st.satellites scaledDt }

/-- One `animate` frame of the alternate loop `src/unnamed/part_001` (lines
142-179): `scaledDt = realDt * timeScale` with no clamping and with the module
`timeScale` variable. -/
noncomputable def part001Animate (st : AppState) (realDt : ℝ) : AppState :=
  let scaledDt := realDt * st.timeScale
  { st with
    simulatedTime := st.simulatedTime + scaledDt * 1000
    satellites := updateSatellites st.satellites scaledDt }

/-- The five satellites as created in a run whose `Math.random()` samples are all 0. -/
noncomputable def createdSatellites : List Sat := createSatellites fun _ => 0

/-- A concrete app state for evaluating the frame loop: fresh module state of
`app.js` (`timeScale = 1`, `trackingMode = 'EARTH'`, system focus) with the
five registry satellites and the epoch at 0. -/
noncomputable def testAppState : AppState :=
  { simulatedTime := 0
    timeScale := 1
    windowTimeScale := none
    trackingMode := "EARTH"
    focusTarget := ⟨"SYSTEM", none⟩
    activeSatIndex := 0
    controlsTarget := ⟨0, 0, 0⟩
    satellites := createdSatellites }

/-- Euclidean length of a `Vec3` (`THREE.Vector3.length`). -/
noncomputable def vnorm (v : Vec3) : ℝ :=
  Real.sqrt (v.x ^ 2 + v.y ^ 2 + v.z ^ 2)

/-! ### Helper lemmas -/

/-- Arithmetic helper: a point on a circle of radius `r ≥ 0` in the XZ plane is
at distance `r` from the origin. -/
lemma sqrt_circle (r a : ℝ) (h : 0 ≤ r) :
    Real.sqrt ((r * Real.cos a) ^ 2 + 0 ^ 2 + (r * Real.sin a) ^ 2) = r := by
  have h1 : (r * Real.cos a) ^ 2 + 0 ^ 2 + (r * Real.sin a) ^ 2 = r ^ 2 := by
    have hsc := Real.sin_sq_add_cos_sq a
    linear_combination r ^ 2 * hsc
  rw [h1, Real.sqrt_sq h]

/-- A single update step does not change the stored `visualRadius`. -/
lemma updateSat_visualRadius (s : Sat) (dt : ℝ) :
    (updateSat s dt).userData.visualRadius = s.userData.visualRadius := rfl

/-- A fold of update steps does not change the stored `visualRadius`. -/
lemma foldl_updateSat_visualRadius (dts : List ℝ) (s : Sat) :
    (dts.foldl updateSat s).userData.visualRadius = s.userData.visualRadius := by
  induction dts generalizing s with
  | nil => rfl
  | cons d ds ih => rw [List.foldl_cons, ih, updateSat_visualRadius]

/-- Every registry satellite is created with a positive visual radius. -/
lemma registry_visualRadius_pos (i : Fin SATELLITE_REGISTRY.length) (rand : ℝ) :
    0 < (mkSat (SATELLITE_REGISTRY.get i) i.1 rand).userData.visualRadius := by
  fin_cases i <;>
    norm_num [mkSat, SATELLITE_REGISTRY, ISS_ALPHA, CHRONOS_01, AURA_NET, STAR_LINK,
      SPECTER_9, VISUAL_SCALE, PHYSICS.R_EARTH]

/-- A fold of update steps never turns an uninitialized (`none`) clock pair into
real values: JS `undefined + dt` is `NaN`, and `NaN + dt` stays `NaN`. -/
lemma foldl_updateSat_times_none (dts : List ℝ) (s : Sat)
    (he : s.userData.earthTime = none) (hs : s.userData.satTime = none) :
    (dts.foldl updateSat s).userData.earthTime = none ∧
    (dts.foldl updateSat s).userData.satTime = none := by
  induction dts generalizing s with
  | nil => exact ⟨he, hs⟩
  | cons d ds ih =>
      refine ih (updateSat s d) ?_ ?_ <;> simp [updateSat, jsAdd, he, hs]

/-! ### Claims -/

/-- C1: the exposed drift metric `(satelliteElapsedTime - earthElapsedTime)` is
claimed to be always ≤ 0. Evaluated at the failing input (the GPS satellite
after one update step of 1 simulated second): `createSatellites` never
initializes `earthTime`/`satTime`, so JS computes `undefined + dt = NaN` and the
drift shown by `ui.js` is `NaN`, not a real number ≤ 0. -/
theorem c1_drift_is_nan_after_first_step :
    driftMicroseconds ((updateSat (mkSat CHRONOS_01 1 0) 1).userData) = none ∧
    (updateSat (mkSat CHRONOS_01 1 0) 1).userData.earthTime = none ∧
    (updateSat (mkSat CHRONOS_01 1 0) 1).userData.satTime = none :=
  ⟨rfl, rfl, rfl⟩

/-- C2: `earthTime` and `satTime` are claimed to be monotonically non-decreasing
starting from satellite construction. Evaluated on the code: for every sequence
of update steps the two accumulators never hold a real value at all (they start
as JS `undefined` and stay `NaN`), so no monotone growth of numeric clocks takes
place. -/
theorem c2_elapsed_times_never_real (dts : List ℝ) :
    (dts.foldl updateSat (mkSat CHRONOS_01 1 0)).userData.earthTime = none ∧
    (dts.foldl updateSat (mkSat CHRONOS_01 1 0)).userData.satTime = none :=
  foldl_updateSat_times_none dts _ rfl rfl

/-- C3 counterexample: the update step applies no normalization, so the phase
angle leaves `[0, 2π)`. Concretely, the ISS satellite created with random
sample 0 (angle 0), after one step of 10^7 simulated seconds (100 real seconds
at time scale 100000), has angle ≥ 10000 > 2π. -/
theorem c3_counterexample :
    ¬ ((updateSat (mkSat ISS_ALPHA 0 0) (10 ^ 7)).userData.angle < 2 * Real.pi) := by
  rw [not_lt]
  show 2 * Real.pi ≤ 0 * Real.pi * 2 +
    Real.sqrt (PHYSICS.G * PHYSICS.earthMass / (PHYSICS.R_EARTH + 408000)) /
      (PHYSICS.R_EARTH + 408000) * 10 ^ 7
  have hr : PHYSICS.R_EARTH + (408000 : ℝ) = 6779000 := by norm_num [PHYSICS.R_EARTH]
  rw [hr]
  have hs : (6779 : ℝ) ≤ Real.sqrt (PHYSICS.G * PHYSICS.earthMass / 6779000) := by
    rw [show (6779 : ℝ) = Real.sqrt (6779 ^ 2) from
      (Real.sqrt_sq (by norm_num)).symm]
    apply Real.sqrt_le_sqrt
    norm_num [PHYSICS.G, PHYSICS.earthMass]
  have hpi : Real.pi < 3.15 := Real.pi_lt_d2
  nlinarith [hs, hpi]

/-- C3 amended: the `updateSatellites` step adds `angularVelocity * dt` to the
phase angle with no reduction into `[0, 2π)`; the angle is exactly the running
sum and is not wrapped. -/
theorem c3_angle_unnormalized (s : Sat) (dt : ℝ) :
    (updateSat s dt).userData.angle = s.userData.angle + s.userData.angularVelocity * dt :=
  rfl

/-- C4: every registry satellite is created with
`velocity = sqrt(G * earthMass / realRadius)` and
`angularVelocity = velocity / realRadius`, both left untouched by the per-frame
update; for the GPS satellite the real radius is 26571 km and the orbital
velocity lies in (3865, 3875) m/s, i.e. ≈ 3.87 km/s. -/
theorem c4_orbital_parameters (i : Fin SATELLITE_REGISTRY.length) (rand dt : ℝ) :
    (mkSat (SATELLITE_REGISTRY.get i) i.1 rand).userData.velocity =
      Real.sqrt (PHYSICS.G * PHYSICS.earthMass /
        (PHYSICS.R_EARTH + (SATELLITE_REGISTRY.get i).altitude)) ∧
    (mkSat (SATELLITE_REGISTRY.get i) i.1 rand).userData.angularVelocity =
      (mkSat (SATELLITE_REGISTRY.get i) i.1 rand).userData.velocity /
        (PHYSICS.R_EARTH + (SATELLITE_REGISTRY.get i).altitude) ∧
    (updateSat (mkSat (SATELLITE_REGISTRY.get i) i.1 rand) dt).userData.velocity =
      (mkSat (SATELLITE_REGISTRY.get i) i.1 rand).userData.velocity ∧
    (updateSat (mkSat (SATELLITE_REGISTRY.get i) i.1 rand) dt).userData.angularVelocity =
      (mkSat (SATELLITE_REGISTRY.get i) i.1 rand).userData.angularVelocity ∧
    (mkSat CHRONOS_01 1 rand).userData.realRadius = 26571000 ∧
    3865 < (mkSat CHRONOS_01 1 rand).userData.velocity ∧
    (mkSat CHRONOS_01 1 rand).userData.velocity < 3875 := by
  refine ⟨rfl, rfl, rfl, rfl, ?_, ?_, ?_⟩
  · show PHYSICS.R_EARTH + (20200000 : ℝ) = 26571000
    norm_num [PHYSICS.R_EARTH]
  · show (3865 : ℝ) <
      Real.sqrt (PHYSICS.G * PHYSICS.earthMass / (PHYSICS.R_EARTH + 20200000))
    rw [show (3865 : ℝ) = Real.sqrt (3865 ^ 2) from (Real.sqrt_sq (by norm_num)).symm]
    apply Real.sqrt_lt_sqrt (by norm_num)
    norm_num [PHYSICS.G, PHYSICS.earthMass, PHYSICS.R_EARTH]
  · show Real.sqrt (PHYSICS.G * PHYSICS.earthMass / (PHYSICS.R_EARTH + 20200000)) <
      (3875 : ℝ)
    rw [show (3875 : ℝ) = Real.sqrt (3875 ^ 2) from (Real.sqrt_sq (by norm_num)).symm]
    apply Real.sqrt_lt_sqrt
    · norm_num [PHYSICS.G, PHYSICS.earthMass, PHYSICS.R_EARTH]
    · norm_num [PHYSICS.G, PHYSICS.earthMass, PHYSICS.R_EARTH]

/-- C5: with the time scale set to 0 through the speed-change callback, one
frame of 0.05 real seconds still advances the simulated clock (by 50 simulated
seconds, i.e. 50000 ms) and still advances the first satellite's phase angle:
`animate` multiplies by `window.timeScale || 1000`, which never sees the module
`timeScale` and treats 0 as falsy. -/
theorem c5_time_scale_zero_ineffective :
    (animate (onSpeedChange 0 testAppState) (1 / 20)).simulatedTime = 50000 ∧
    ((animate (onSpeedChange 0 testAppState) (1 / 20)).satellites.get? 0).map
        (fun s => s.userData.angle) ≠
      (testAppState.satellites.get? 0).map (fun s => s.userData.angle) := by
  have hjs : jsOr none 1000 = (1000 : ℝ) := rfl
  have hmin : min (1 / 20 : ℝ) 0.1 = 1 / 20 := by norm_num
  constructor
  · show (0 : ℝ) + min (1 / 20) 0.1 * jsOr none 1000 * 1000 = 50000
    rw [hjs, hmin]; norm_num
  · have key : (animate (onSpeedChange 0 testAppState) (1 / 20)).satellites.get? 0 =
        some (updateSat (mkSat ISS_ALPHA 0 0) (min (1 / 20 : ℝ) 0.1 * jsOr none 1000)) := rfl
    have key2 : testAppState.satellites.get? 0 = some (mkSat ISS_ALPHA 0 0) := rfl
    rw [key, key2, Option.map_some', Option.map_some', ne_eq, Option.some.injEq]
    have hω : 0 < (mkSat ISS_ALPHA 0 0).userData.angularVelocity := by
      show 0 < Real.sqrt (PHYSICS.G * PHYSICS.earthMass / (PHYSICS.R_EARTH + 408000)) /
        (PHYSICS.R_EARTH + 408000)
      apply div_pos
      · exact Real.sqrt_pos.mpr (by norm_num [PHYSICS.G, PHYSICS.earthMass, PHYSICS.R_EARTH])
      · norm_num [PHYSICS.R_EARTH]
    show ¬ ((mkSat ISS_ALPHA 0 0).userData.angle +
        (mkSat ISS_ALPHA 0 0).userData.angularVelocity *
          (min (1 / 20 : ℝ) 0.1 * jsOr none 1000) =
      (mkSat ISS_ALPHA 0 0).userData.angle)
    rw [hjs, hmin]
    intro h
    nlinarith [hω]

/-- C6 counterexample: selecting satellite index 7 with only five registered
satellites is not rejected: the focus state is mutated to the invalid index
before the lookup fails, and a `TypeError` is thrown (second component `true`). -/
theorem c6_counterexample :
    testAppState.activeSatIndex = 0 ∧
    (onSelectGPS 0 testAppState 7).1.activeSatIndex = 7 ∧
    (onSelectGPS 0 testAppState 7).1.focusTarget = ⟨"SATELLITE", some 7⟩ ∧
    (onSelectGPS 0 testAppState 7).1.trackingMode = "SATELLITE" ∧
    (onSelectGPS 0 testAppState 7).2 = true :=
  ⟨rfl, rfl, rfl, rfl, rfl⟩

/-- C6 amended: for any out-of-range index, `onSelectGPS` unconditionally
overwrites `focusTarget`, `trackingMode` and `activeSatIndex` with the invalid
selection and then throws (`TypeError` from `getWorldPosition` on `undefined`);
only the camera target is left unchanged. -/
theorem c6_out_of_range_selection_mutates_and_throws (earthOrbitY : ℝ) (st : AppState)
    (index : ℕ) (h : st.satellites.length ≤ index) :
    (onSelectGPS earthOrbitY st index).1.focusTarget = ⟨"SATELLITE", some index⟩ ∧
    (onSelectGPS earthOrbitY st index).1.trackingMode = "SATELLITE" ∧
    (onSelectGPS earthOrbitY st index).1.activeSatIndex = index ∧
    (onSelectGPS earthOrbitY st index).1.controlsTarget = st.controlsTarget ∧
    (onSelectGPS earthOrbitY st index).2 = true := by
  have hg : st.satellites[index]? = none := List.getElem?_eq_none h
  simp [onSelectGPS, hg]

/-- C6 witness: the amended theorem applied to the concrete five-satellite state
and index 7. -/
theorem c6_witness :
    testAppState.satellites.length ≤ 7 ∧
    (onSelectGPS 0 testAppState 7).2 = true :=
  ⟨by decide, (c6_out_of_range_selection_mutates_and_throws 0 testAppState 7
    (by decide)).2.2.2.2⟩

/-- C7: every update step does re-evaluate the look-at constraint, but its
target is the world origin `(0,0,0)` (the Sun's position), not the origin of the
satellite's parent frame: the Earth-following anchor sits at `(15000, 0, 0)`
inside the Earth orbit pivot, so the parent origin's world position is never the
world origin, for any Earth orbit angle. -/
theorem c7_look_target_is_world_origin_not_parent_origin (s : Sat) (dt earthOrbitY : ℝ) :
    (updateSat s dt).lookTarget = some ⟨0, 0, 0⟩ ∧
    pivotOriginWorld earthOrbitY ≠ (⟨0, 0, 0⟩ : Vec3) := by
  refine ⟨rfl, ?_⟩
  intro h
  have hx : (15000 : ℝ) * Real.cos earthOrbitY + 0 * Real.sin earthOrbitY = 0 :=
    congrArg Vec3.x h
  have hz : -(15000 : ℝ) * Real.sin earthOrbitY + 0 * Real.cos earthOrbitY = 0 :=
    congrArg Vec3.z h
  have hsc := Real.sin_sq_add_cos_sq earthOrbitY
  nlinarith [hx, hz, hsc, sq_nonneg (Real.sin earthOrbitY), sq_nonneg (Real.cos earthOrbitY)]

/-- C8 counterexample: the alternate loop of `src/unnamed/part_001` applies no
0.1 s clamp: a single frame after a 5-second stall at time scale 1000 advances
the simulated clock by 5,000,000 ms = 5000 s, far more than 0.1 × 1000 = 100 s. -/
theorem c8_counterexample :
    (part001Animate { testAppState with timeScale := 1000 } 5).simulatedTime = 5000000 ∧
    ¬ ((part001Animate { testAppState with timeScale := 1000 } 5).simulatedTime ≤
        0.1 * 1000 * 1000) := by
  constructor
  · show (0 : ℝ) + 5 * 1000 * 1000 = 5000000
    norm_num
  · show ¬ ((0 : ℝ) + 5 * 1000 * 1000 ≤ 0.1 * 1000 * 1000)
    norm_num

/-- C8 amended: the main loop of `app.js` does clamp: `physicsDt = min(realDt,
0.1)`, so one frame advances the simulated clock by at most 0.1 × the loop's
scale factor (`window.timeScale || 1000`), for any stall length. -/
theorem c8_app_animate_clamped (st : AppState) (realDt : ℝ)
    (h : 0 ≤ jsOr st.windowTimeScale 1000) :
    (animate st realDt).simulatedTime - st.simulatedTime ≤
      0.1 * jsOr st.windowTimeScale 1000 * 1000 := by
  show st.simulatedTime + min realDt 0.1 * jsOr st.windowTimeScale 1000 * 1000 -
      st.simulatedTime ≤ 0.1 * jsOr st.windowTimeScale 1000 * 1000
  have hm : min realDt (0.1 : ℝ) ≤ 0.1 := min_le_right _ _
  have hmul : min realDt 0.1 * jsOr st.windowTimeScale 1000 ≤
      0.1 * jsOr st.windowTimeScale 1000 :=
    mul_le_mul_of_nonneg_right hm h
  nlinarith [hmul]

/-- C8 witness: the clamped bound applied to the concrete state after a
5-second stall. -/
theorem c8_witness :
    0 ≤ jsOr testAppState.windowTimeScale 1000 ∧
    (animate testAppState 5).simulatedTime - testAppState.simulatedTime ≤
      0.1 * jsOr testAppState.windowTimeScale 1000 * 1000 :=
  ⟨by norm_num [testAppState, jsOr], c8_app_animate_clamped testAppState 5
    (by norm_num [testAppState, jsOr])⟩

/-- C10: after any number of update steps followed by one more step, a registry
satellite's local position is exactly `(visualRadius * cos angle, 0,
visualRadius * sin angle)`: the y-coordinate is 0 and the distance from the
pivot origin equals the `visualRadius` stored at creation, which no step
changes. -/
theorem c10_orbit_plane_invariant (i : Fin SATELLITE_REGISTRY.length) (rand dt : ℝ)
    (dts : List ℝ) :
    let s0 := mkSat (SATELLITE_REGISTRY.get i) i.1 rand
    let s := updateSat (dts.foldl updateSat s0) dt
    s.position.x = s.userData.visualRadius * Real.cos s.userData.angle ∧
    s.position.y = 0 ∧
    s.position.z = s.userData.visualRadius * Real.sin s.userData.angle ∧
    vnorm s.position = s.userData.visualRadius ∧
    s.userData.visualRadius = s0.userData.visualRadius := by
  intro s0 s
  have hvr : (dts.foldl updateSat s0).userData.visualRadius = s0.userData.visualRadius :=
    foldl_updateSat_visualRadius dts s0
  have hpos : 0 ≤ (dts.foldl updateSat s0).userData.visualRadius := by
    rw [hvr]; exact (registry_visualRadius_pos i rand).le
  exact ⟨rfl, rfl, rfl, sqrt_circle _ _ hpos, hvr⟩

/-- C9 counterexample: two runs with identical inputs but different
`Math.random()` draws (0 versus 1/4) create the GPS satellite with different
initial phase angles, so runs are not determined by the delta times and UI
inputs alone. -/
theorem c9_counterexample :
    (mkSat CHRONOS_01 1 0).userData.angle ≠ (mkSat CHRONOS_01 1 (1 / 4)).userData.angle := by
  show (0 : ℝ) * Real.pi * 2 ≠ (1 / 4) * Real.pi * 2
  have hpi := Real.pi_pos
  intro h
  nlinarith

/-- C9 amended: the simulation is deterministic given the `Math.random()`
samples: two runs whose random draws agree pointwise and that receive the same
sequence of scaled delta times produce identical satellite states at every step. -/
theorem c9_deterministic_given_draws (rand1 rand2 : ℕ → ℝ) (dts : List ℝ)
    (h : ∀ i, rand1 i = rand2 i) :
    dts.foldl updateSatellites (createSatellites rand1) =
      dts.foldl updateSatellites (createSatellites rand2) := by
  have hf : rand1 = rand2 := funext h
  rw [hf]

/-- C9 witness: the determinism theorem applied to the all-zero draw stream and
a single step of 1 second. -/
theorem c9_witness :
    (∀ i : ℕ, (fun _ : ℕ => (0 : ℝ)) i = (fun _ : ℕ => (0 : ℝ)) i) ∧
    [(1 : ℝ)].foldl updateSatellites (createSatellites fun _ => 0) =
      [(1 : ℝ)].foldl updateSatellites (createSatellites fun _ => 0) :=
  ⟨fun _ => rfl, c9_deterministic_given_draws _ _ [(1 : ℝ)] fun _ => rfl⟩

end GeoRel
